import Mathlib

/-!
Verification development for the weewx-owm extension
(src/bin/user/owm.py, src/install.py): a shallow embedding of the
OpenWeatherMap uploader in Lean, with theorems about payload construction,
URL construction, configuration defaulting, service initialisation and the
retry policy.

Conventions of the embedding:
* Python numbers are modelled as rationals (ℚ); the arithmetic the source
  performs on observation values (value * scale + offset) is exact on the
  values the development mentions.
* A weewx archive record is an association list from observation name to an
  optional value: a key absent from the list models a key absent from the
  Python dict, and a key mapped to `none` models a key whose dict value is
  Python `None`.  Lookup returns the first binding, as a dict has unique keys.
* The external json library (an out-of-scope collaborator of the source) is
  modelled by a concrete serializer for the flat, string-or-number valued
  objects that the uploader produces.
-/

namespace Owm

/-- Lookup in an association list keyed by strings; models Python dict
access (`d[k]`, `k in d`).  Returns the first binding of the key. -/
def rlookup {α : Type} (k : String) : List (String × α) → Option α
  | [] => none
  | (k2, v) :: es => if k = k2 then some v else rlookup k es

/-- An archive record: observation name to optional rational value.
`none` models a key present in the dict with Python value `None`. -/
abbrev Record := List (String × Option ℚ)

/-- A flat JSON value as produced by the uploader: a string or a number. -/
inductive JValue where
  | str (s : String)
  | num (q : ℚ)
deriving DecidableEq

/-- Serialization of a flat JSON value; models the external json library on
the values the uploader emits. -/
def dumpsVal : JValue → String
  | JValue.str s => "\"" ++ s ++ "\""
  | JValue.num q => toString q

/-- Serialization of a flat JSON object; models the external json library
(`json.dumps` with its default separators) on one flat object. -/
def dumpsObj (kvs : List (String × JValue)) : String :=
  "\x7b" ++ String.intercalate (", ") (kvs.map (fun kv => "\"" ++ kv.1 ++ "\": " ++ dumpsVal kv.2)) ++ "\x7d"

/-- Serialization of a one-element JSON array holding one flat object;
models `json.dumps([values])` at line 215 of src/bin/user/owm.py. -/
def dumpsSingletonArr (kvs : List (String × JValue)) : String :=
  "[" ++ dumpsObj kvs ++ "]"

/-- `OpenWeatherMapThread._SERVER_URL` (src/bin/user/owm.py line 156). -/
def _SERVER_URL : String := "http://api.openweathermap.org/data/3.0/measurements"

/-- `OpenWeatherMapThread._DATA_MAP` (src/bin/user/owm.py lines 157-167):
target field name to (source field name, scale, offset), in the insertion
order of the Python dict literal. -/
def _DATA_MAP : List (String × String × ℚ × ℚ) :=
  [("dt",          ("dateTime",    1, 0)),
   ("wind_deg",    ("windDir",     1.0, 0.0)),
   ("wind_speed",  ("windSpeed",   0.2777777777, 0.0)),
   ("wind_gust",   ("windGust",    0.2777777777, 0.0)),
   ("temperature", ("outTemp",     1.0, 0.0)),
   ("humidity",    ("outHumidity", 1.0, 0.0)),
   ("pressure",    ("barometer",   1.0, 0.0)),
   ("rain_1h",     ("hourRain",    10.0, 0.0)),
   ("rain_24h",    ("rain24",      10.0, 0.0))]

/-- One iteration of the loop at src/bin/user/owm.py lines 211-214: for a
map entry (target, (source, scale, offset)), if the source key is in the
record and its value is not `None`, produce the target binding
`record[source] * scale + offset`; otherwise produce nothing. -/
def mapEntry (record : Record) (m : String × String × ℚ × ℚ) : Option (String × JValue) :=
  match rlookup (m.2.1) record with
  | some (some v) => some ((m.1, JValue.num (v * m.2.2.1 + m.2.2.2)))
  | _ => none

/-- The `values` dict built by `get_post_body` (src/bin/user/owm.py lines
209-214): the station identifier first, then one binding per `_DATA_MAP`
entry whose source field is present and not `None`, in map order. -/
def buildValues (station_id : String) (record : Record) : List (String × JValue) :=
  (("station_id"), JValue.str station_id) :: _DATA_MAP.filterMap (mapEntry record)

/-- `OpenWeatherMapThread.get_post_body` (src/bin/user/owm.py lines
202-216).  The unit conversion `weewx.units.to_METRIC` is an external pure
transform and is passed in as a function. -/
def get_post_body (to_METRIC : Record → Record) (station_id : String)
    (in_record : Record) : String × String :=
  let record := to_METRIC in_record
  let values := buildValues station_id record
  let data := dumpsSingletonArr values
  (data, ("application/json"))

/-- `OpenWeatherMapThread.format_url` (src/bin/user/owm.py lines 195-199):
the posted record plays no role in the URL. -/
def format_url (server_url appid : String) : String :=
  server_url ++ ("?appid=") ++ appid

/-- The station metadata the host engine supplies (`engine.stn_info`):
`latitude_f`, `longitude_f` and `altitude_vt[0]`, used as fallbacks at
src/bin/user/owm.py lines 111-113. -/
structure StationInfo where
  latitude_f : ℚ
  longitude_f : ℚ
  altitude_vt0 : ℚ

/-- The `[StdRESTful][[OpenWeatherMap]]` site dictionary after
`accumulateLeaves`: every recognized option, each `none` when the option is
not supplied in the configuration. -/
structure SiteOpts where
  appid : Option String
  station_id : Option String
  latitude : Option ℚ
  longitude : Option ℚ
  altitude : Option ℚ
  server_url : Option String
  skip_upload : Option Bool
  post_interval : Option ℚ
  max_backlog : Option ℕ
  stale : Option ℚ
  log_success : Option Bool
  log_failure : Option Bool
  timeout : Option ℚ
  max_tries : Option ℕ
  retry_wait : Option ℚ

/-- The state of a constructed `OpenWeatherMapThread`: the attributes the
constructor at src/bin/user/owm.py lines 169-193 stores on itself and the
policy options it hands to the `RESTThread` superclass.  `post_interval`
and `stale` keep their Python `None` sentinel as `Option`. -/
structure ThreadConfig where
  appid : String
  latitude : ℚ
  longitude : ℚ
  altitude : ℚ
  station_id : String
  server_url : String
  skip_upload : Bool
  post_interval : Option ℚ
  max_backlog : ℕ
  stale : Option ℚ
  log_success : Bool
  log_failure : Bool
  timeout : ℚ
  max_tries : ℕ
  retry_wait : ℚ
deriving DecidableEq

/-- `OpenWeatherMapThread.__init__` (src/bin/user/owm.py lines 169-193):
each keyword argument comes from the site dictionary when supplied there
and otherwise takes the Python default of lines 172-175.  `to_bool` on an
already-boolean `skip_upload` is the identity. -/
def mkOpenWeatherMapThread (appid : String) (latitude longitude altitude : ℚ)
    (station_id : String) (s : SiteOpts) : ThreadConfig :=
  { appid := appid
    latitude := latitude
    longitude := longitude
    altitude := altitude
    station_id := station_id
    server_url := s.server_url.getD _SERVER_URL
    skip_upload := s.skip_upload.getD false
    post_interval := s.post_interval
    max_backlog := s.max_backlog.getD 0
    stale := s.stale
    log_success := s.log_success.getD true
    log_failure := s.log_failure.getD true
    timeout := s.timeout.getD 60
    max_tries := s.max_tries.getD 3
    retry_wait := s.retry_wait.getD 5 }

/-- The externally observable outcome of `OpenWeatherMap.__init__`
(src/bin/user/owm.py lines 76-121).  The Python constructor always returns
normally; this record captures which log lines it emitted and which
side effects (queue creation, thread start, event binding) happened. -/
structure InitResult where
  loggedUpgradeNeeded : Bool
  loggedMissingOption : Bool
  queueCreated : Bool
  threadStarted : Bool
  boundNewArchiveRecord : Bool
  thread : Option ThreadConfig
deriving DecidableEq

/-- `OpenWeatherMap.__init__` (src/bin/user/owm.py lines 76-121) as a pure
function.  `hasGetPostBody` models whether `weewx.restx.RESTThread` has the
`get_post_body` attribute (lines 96-101); `site = none` models a missing
`[StdRESTful][[OpenWeatherMap]]` section (the same `KeyError` path as a
missing option, lines 103-110); a missing `appid` or `station_id` key
raises `KeyError` at lines 106-107.  The `setdefault` calls of lines
111-113 fill unset coordinates from the station info.  `manager_dict` and
the logging sinks are external collaborators and are not modelled.  The
function is total: construction returns normally on every input. -/
def owmInit (hasGetPostBody : Bool) (site : Option SiteOpts) (stn : StationInfo) : InitResult :=
  if hasGetPostBody then
    match site with
    | none =>
      { loggedUpgradeNeeded := false, loggedMissingOption := true, queueCreated := false,
        threadStarted := false, boundNewArchiveRecord := false, thread := none }
    | some s =>
      match s.appid, s.station_id with
      | some appid, some sid =>
        let lat := s.latitude.getD stn.latitude_f
        let lon := s.longitude.getD stn.longitude_f
        let alt := s.altitude.getD stn.altitude_vt0
        { loggedUpgradeNeeded := false, loggedMissingOption := false, queueCreated := true,
          threadStarted := true, boundNewArchiveRecord := true,
          thread := some (mkOpenWeatherMapThread appid lat lon alt sid s) }
      | _, _ =>
        { loggedUpgradeNeeded := false, loggedMissingOption := true, queueCreated := false,
          threadStarted := false, boundNewArchiveRecord := false, thread := none }
  else
    { loggedUpgradeNeeded := true, loggedMissingOption := false, queueCreated := false,
      threadStarted := false, boundNewArchiveRecord := false, thread := none }

/-- An observable event of one posting cycle of the upload worker. -/
inductive PostEvent where
  | attempt
  | sleepRetry (secs : ℚ)
deriving DecidableEq

/-- Modelled from the spec: the POST retry loop of the upload worker.  The
loop itself lives in `weewx.restx.RESTThread.process_record`, outside this
repository; src/bin/user/owm.py only configures it (lines 169-186).  Per
spec section 4.2 step 8: attempt the POST up to `max_tries` times; a 2xx
response is a success and ends the loop; on failure, if attempts remain,
sleep `retry_wait` seconds and retry, and if attempts are exhausted, log
the failure and abandon the record.  `post k` tells whether attempt `k`
succeeds.  The result is the ordered event trace and whether the upload
succeeded; `false` means the record is abandoned (no re-enqueue), and
totality of the function models that the worker does not crash. -/
def retryLoop : (ℕ → Bool) → ℕ → ℚ → List PostEvent × Bool
  | _, 0, _ => ([], false)
  | post, 1, _ => ([PostEvent.attempt], post 0)
  | post, (m + 2), retry_wait =>
    if post 0 then ([PostEvent.attempt], true)
    else
      let rest := retryLoop (fun k => post (k + 1)) (m + 1) retry_wait
      (PostEvent.attempt :: PostEvent.sleepRetry retry_wait :: rest.1, rest.2)

/-- Helper: a value produced by `mapEntry` is keyed by the entry's target
field name. -/
theorem mapEntry_key (record : Record) (m : String × String × ℚ × ℚ)
    (p : String × JValue) (h : mapEntry record m = some p) : p.1 = m.1 := by
  unfold mapEntry at h
  split at h
  · injection h with h1
    rw [← h1]
  · cases h

/-- Helper: looking up a target key that no entry of the map slice carries
finds nothing among the produced bindings. -/
theorem rlookup_filterMap_not_mem (record : Record) (t : String) :
    ∀ l : List (String × String × ℚ × ℚ), t ∉ l.map Prod.fst →
      rlookup t (l.filterMap (mapEntry record)) = none := by
  intro l
  induction l with
  | nil => intro _; rfl
  | cons m l ih =>
    intro hnm
    rw [List.map_cons] at hnm
    have h1 : t ≠ m.1 := fun h => hnm (by rw [h]; exact List.mem_cons_self _ _)
    have h2 : t ∉ l.map Prod.fst := fun h => hnm (List.mem_cons_of_mem _ h)
    rw [List.filterMap_cons]
    cases hme : mapEntry record m with
    | none => exact ih h2
    | some p =>
      have hp := mapEntry_key record m p hme
      obtain ⟨k, v⟩ := p
      simp only [rlookup]
      rw [if_neg (fun he => h1 (he.trans hp))]
      exact ih h2

/-- Helper: when the map slice has no duplicate target keys, looking up a
target key among the produced bindings yields exactly what `mapEntry`
produces for that entry. -/
theorem rlookup_filterMap_mem (record : Record) :
    ∀ (l : List (String × String × ℚ × ℚ)) (t : String) (m : String × ℚ × ℚ),
      (l.map Prod.fst).Nodup → (t, m) ∈ l →
      rlookup t (l.filterMap (mapEntry record)) = (mapEntry record (t, m)).map Prod.snd := by
  intro l
  induction l with
  | nil => intro t m _ hmem; cases hmem
  | cons e l ih =>
    intro t m hnd hmem
    rw [List.map_cons, List.nodup_cons] at hnd
    obtain ⟨hh, ht⟩ := hnd
    rw [List.filterMap_cons]
    rcases List.mem_cons.mp hmem with heq | hmem2
    · subst heq
      cases hme : mapEntry record (t, m) with
      | none =>
        exact rlookup_filterMap_not_mem record t l hh
      | some p =>
        have hp := mapEntry_key record (t, m) p hme
        obtain ⟨k, v⟩ := p
        simp only [rlookup]
        rw [if_pos hp.symm]
        rfl
    · have htl : t ∈ l.map Prod.fst := List.mem_map_of_mem Prod.fst hmem2
      have hne : t ≠ e.1 := fun h => hh (h ▸ htl)
      cases hme : mapEntry record e with
      | none => exact ih t m ht hmem2
      | some p =>
        have hp := mapEntry_key record e p hme
        obtain ⟨k, v⟩ := p
        simp only [rlookup]
        rw [if_neg (fun he => hne (he.trans hp))]
        exact ih t m ht hmem2

/-- Helper: the nine target field names of `_DATA_MAP` are pairwise
distinct (they are the keys of a Python dict literal). -/
theorem dataMap_target_keys_nodup : (_DATA_MAP.map Prod.fst).Nodup := by decide

/-- Helper: no `_DATA_MAP` target field is named `station_id`, so the
station identifier binding is never shadowed. -/
theorem target_ne_station_id (t : String) (m : String × ℚ × ℚ)
    (h : (t, m) ∈ _DATA_MAP) : t ≠ "station_id" := by
  intro he
  have hmm : t ∈ _DATA_MAP.map Prod.fst := List.mem_map_of_mem Prod.fst h
  rw [he] at hmm
  exact absurd hmm (by decide)

/-- Helper: looking up a target field of `_DATA_MAP` in the built payload
yields exactly what `mapEntry` produces for that entry. -/
theorem rlookup_buildValues (sid : String) (record : Record) (t : String)
    (m : String × ℚ × ℚ) (hne : t ≠ "station_id") (hmem : (t, m) ∈ _DATA_MAP) :
    rlookup t (buildValues sid record) = (mapEntry record (t, m)).map Prod.snd := by
  unfold buildValues
  simp only [rlookup]
  rw [if_neg hne]
  exact rlookup_filterMap_mem record _DATA_MAP t m dataMap_target_keys_nodup hmem

/-- Sample metric record with `outTemp = 21.5` and `windSpeed = 3.6`
(the record of the Mapping fidelity scenario; `outHumidity` is absent). -/
def rec0 : Record := [(("outTemp"), some (21.5 : ℚ)), (("windSpeed"), some (3.6 : ℚ))]

/-- Sample metric record carrying a `dateTime` of 1000 epoch seconds. -/
def rec1 : Record := [(("dateTime"), some (1000 : ℚ)), (("outTemp"), some (21 : ℚ))]

/-- A site dictionary supplying no option at all. -/
def emptyOpts : SiteOpts :=
  { appid := none, station_id := none, latitude := none, longitude := none, altitude := none,
    server_url := none, skip_upload := none, post_interval := none, max_backlog := none,
    stale := none, log_success := none, log_failure := none, timeout := none,
    max_tries := none, retry_wait := none }

/-- Sample host-station metadata used as the fallback coordinates. -/
def sampleStn : StationInfo := { latitude_f := 42, longitude_f := -71, altitude_vt0 := 10 }

/-- A site dictionary with the required options and a configured latitude,
but no longitude or altitude. -/
def coordOpts : SiteOpts :=
  { emptyOpts with appid := some ("k"), station_id := some ("sid"), latitude := some (12 : ℚ) }

/-- Claim C1: for every metric-converted record, each target field that the
built payload carries equals the corresponding source field's value times
the mapping table's scale plus its offset. -/
theorem owm_mapping_scale_offset (to_METRIC : Record → Record) (sid : String)
    (in_record : Record) (t s : String) (scale offset v : ℚ)
    (hmem : (t, (s, scale, offset)) ∈ _DATA_MAP)
    (hv : rlookup s (to_METRIC in_record) = some (some v)) :
    rlookup t (buildValues sid (to_METRIC in_record)) = some (JValue.num (v * scale + offset)) := by
  have hne := target_ne_station_id t (s, scale, offset) hmem
  rw [rlookup_buildValues sid (to_METRIC in_record) t (s, scale, offset) hne hmem]
  unfold mapEntry
  simp [hv]

/-- Witness for C1: a record with `outTemp = 21.5` and `windSpeed = 3.6`
yields `temperature = 21.5` and `wind_speed = 3.6 * 0.2777777777`. -/
theorem owm_mapping_scale_offset_witness :
    rlookup ("temperature") (buildValues ("mystation") (id rec0)) = some (JValue.num (21.5 : ℚ)) ∧
    rlookup ("wind_speed") (buildValues ("mystation") (id rec0)) =
      some (JValue.num ((3.6 : ℚ) * 0.2777777777)) := by
  constructor
  · have h := owm_mapping_scale_offset id ("mystation") rec0 ("temperature") ("outTemp")
      1.0 0.0 21.5 (by simp [_DATA_MAP]) rfl
    norm_num at h ⊢
    exact h
  · have h := owm_mapping_scale_offset id ("mystation") rec0 ("wind_speed") ("windSpeed")
      0.2777777777 0.0 3.6 (by simp [_DATA_MAP]) rfl
    norm_num at h ⊢
    exact h

/-- Claim C2: a source field that is absent from the record, or whose value
is `None`, leaves the corresponding target key absent from the built
payload (it is never emitted as 0 or null). -/
theorem owm_absent_field_omitted (to_METRIC : Record → Record) (sid : String)
    (in_record : Record) (t s : String) (scale offset : ℚ)
    (hmem : (t, (s, scale, offset)) ∈ _DATA_MAP)
    (habs : rlookup s (to_METRIC in_record) = none ∨ rlookup s (to_METRIC in_record) = some none) :
    rlookup t (buildValues sid (to_METRIC in_record)) = none := by
  have hne := target_ne_station_id t (s, scale, offset) hmem
  rw [rlookup_buildValues sid (to_METRIC in_record) t (s, scale, offset) hne hmem]
  unfold mapEntry
  rcases habs with h | h <;> simp [h]

/-- Witness for C2: a record missing `outHumidity` yields a payload with no
`humidity` key. -/
theorem owm_absent_field_omitted_witness :
    rlookup ("humidity") (buildValues ("mystation") (id rec0)) = none :=
  owm_absent_field_omitted id ("mystation") rec0 ("humidity") ("outHumidity") 1.0 0.0
    (by simp [_DATA_MAP]) (Or.inl rfl)

/-- Claim C3: every built payload carries `station_id` equal to the
configured station identifier, and when the record carries a `dateTime` of
`T`, the payload carries `dt` equal to `T` (scale 1, offset 0). -/
theorem owm_station_id_and_dt (to_METRIC : Record → Record) (sid : String) (in_record : Record) :
    rlookup ("station_id") (buildValues sid (to_METRIC in_record)) = some (JValue.str sid) ∧
    (∀ T : ℚ, rlookup ("dateTime") (to_METRIC in_record) = some (some T) →
      rlookup ("dt") (buildValues sid (to_METRIC in_record)) = some (JValue.num T)) := by
  constructor
  · unfold buildValues
    simp [rlookup]
  · intro T hT
    have hmem : (("dt"), (("dateTime"), (1 : ℚ), (0 : ℚ))) ∈ _DATA_MAP := by simp [_DATA_MAP]
    have hne := target_ne_station_id ("dt") (("dateTime"), (1 : ℚ), (0 : ℚ)) hmem
    rw [rlookup_buildValues sid (to_METRIC in_record) ("dt") (("dateTime"), (1 : ℚ), (0 : ℚ))
      hne hmem]
    unfold mapEntry
    simp [hT]

/-- Witness for C3: a record with `dateTime = 1000` yields a payload with
`station_id = mystation` and `dt = 1000`. -/
theorem owm_station_id_and_dt_witness :
    rlookup ("station_id") (buildValues ("mystation") (id rec1)) = some (JValue.str ("mystation")) ∧
    rlookup ("dt") (buildValues ("mystation") (id rec1)) = some (JValue.num (1000 : ℚ)) :=
  ⟨(owm_station_id_and_dt id ("mystation") rec1).1,
   (owm_station_id_and_dt id ("mystation") rec1).2 1000 rfl⟩

/-- Claim C4: the POST URL is the configured server URL followed by
`?appid=` and the credential, and the default server URL is the vendor
endpoint `http://api.openweathermap.org/data/3.0/measurements`. -/
theorem owm_post_url (su a : String) (a2 : String) (lat lon alt : ℚ) (sid : String)
    (s : SiteOpts) (hdef : s.server_url = none) :
    format_url su a = su ++ ("?appid=") ++ a ∧
    _SERVER_URL = ("http://api.openweathermap.org/data/3.0/measurements") ∧
    (mkOpenWeatherMapThread a2 lat lon alt sid s).server_url = _SERVER_URL := by
  refine ⟨rfl, rfl, ?_⟩
  simp [mkOpenWeatherMapThread, hdef]

/-- Witness for C4: with the default server URL and credential `myappid`,
the POST URL is the vendor endpoint with the credential appended. -/
theorem owm_post_url_witness :
    format_url _SERVER_URL ("myappid") =
      ("http://api.openweathermap.org/data/3.0/measurements?appid=myappid") ∧
    (mkOpenWeatherMapThread ("k") 1 2 3 ("sid") emptyOpts).server_url = _SERVER_URL := by
  have h := owm_post_url _SERVER_URL ("myappid") ("k") 1 2 3 ("sid") emptyOpts rfl
  exact ⟨by rw [h.1]; rfl, h.2.2⟩

/-- Claim C5: when `appid` or `station_id` is missing from the
configuration, initialisation logs an error and returns normally without
starting the worker thread, creating the queue, or binding the
new-archive-record listener. -/
theorem owm_missing_required_option (s : SiteOpts) (stn : StationInfo)
    (h : s.appid = none ∨ s.station_id = none) :
    owmInit true (some s) stn =
      { loggedUpgradeNeeded := false, loggedMissingOption := true, queueCreated := false,
        threadStarted := false, boundNewArchiveRecord := false, thread := none } := by
  unfold owmInit
  rcases h with h | h
  · cases hsi : s.station_id <;> simp [h, hsi]
  · cases hsa : s.appid <;> simp [h, hsa]

/-- Witness for C5: a configuration with a station identifier but no
`appid` is rejected with an error and no side effects. -/
theorem owm_missing_required_option_witness :
    owmInit true (some ({ emptyOpts with station_id := some ("sid") })) sampleStn =
      { loggedUpgradeNeeded := false, loggedMissingOption := true, queueCreated := false,
        threadStarted := false, boundNewArchiveRecord := false, thread := none } :=
  owm_missing_required_option _ sampleStn (Or.inl rfl)

/-- Claim C6: with `max_tries = 3` and a POST that fails on every attempt,
exactly 3 attempts occur, each separated by a `retry_wait` sleep, the
upload ends unsuccessfully (the record is abandoned), and there is no
fourth attempt.  Settled against the spec-modelled `retryLoop`. -/
theorem owm_retry_exhaustion (post : ℕ → Bool) (w : ℚ) (hfail : ∀ k, post k = false) :
    retryLoop post 3 w =
      ([PostEvent.attempt, PostEvent.sleepRetry w, PostEvent.attempt,
        PostEvent.sleepRetry w, PostEvent.attempt], false) ∧
    (retryLoop post 3 w).1.count PostEvent.attempt = 3 := by
  have htrace : retryLoop post 3 w =
      ([PostEvent.attempt, PostEvent.sleepRetry w, PostEvent.attempt,
        PostEvent.sleepRetry w, PostEvent.attempt], false) := by
    simp [retryLoop, hfail]
  refine ⟨htrace, ?_⟩
  rw [htrace]
  rfl

/-- Witness for C6: the always-failing POST with `retry_wait = 5` produces
exactly the three-attempt trace. -/
theorem owm_retry_exhaustion_witness :
    retryLoop (fun _ => false) 3 5 =
      ([PostEvent.attempt, PostEvent.sleepRetry 5, PostEvent.attempt,
        PostEvent.sleepRetry 5, PostEvent.attempt], false) ∧
    (retryLoop (fun _ => false) 3 5).1.count PostEvent.attempt = 3 :=
  owm_retry_exhaustion (fun _ => false) 5 (fun _ => rfl)

/-- Claim C7: every configuration option that is not supplied takes its
documented default: `skip_upload = false`, `post_interval = none`,
`max_backlog = 0`, `stale = none`, `log_success = true`,
`log_failure = true`, `timeout = 60`, `max_tries = 3`, `retry_wait = 5`. -/
theorem owm_thread_defaults (a : String) (lat lon alt : ℚ) (i : String) (s : SiteOpts) :
    (s.skip_upload = none → (mkOpenWeatherMapThread a lat lon alt i s).skip_upload = false) ∧
    (s.post_interval = none → (mkOpenWeatherMapThread a lat lon alt i s).post_interval = none) ∧
    (s.max_backlog = none → (mkOpenWeatherMapThread a lat lon alt i s).max_backlog = 0) ∧
    (s.stale = none → (mkOpenWeatherMapThread a lat lon alt i s).stale = none) ∧
    (s.log_success = none → (mkOpenWeatherMapThread a lat lon alt i s).log_success = true) ∧
    (s.log_failure = none → (mkOpenWeatherMapThread a lat lon alt i s).log_failure = true) ∧
    (s.timeout = none → (mkOpenWeatherMapThread a lat lon alt i s).timeout = 60) ∧
    (s.max_tries = none → (mkOpenWeatherMapThread a lat lon alt i s).max_tries = 3) ∧
    (s.retry_wait = none → (mkOpenWeatherMapThread a lat lon alt i s).retry_wait = 5) := by
  refine ⟨?_, ?_, ?_, ?_, ?_, ?_, ?_, ?_, ?_⟩ <;> intro h <;> simp [mkOpenWeatherMapThread, h]

/-- Witness for C7: a thread built from an empty site dictionary carries
all nine documented defaults. -/
theorem owm_thread_defaults_witness :
    (mkOpenWeatherMapThread ("k") 1 2 3 ("sid") emptyOpts).skip_upload = false ∧
    (mkOpenWeatherMapThread ("k") 1 2 3 ("sid") emptyOpts).post_interval = none ∧
    (mkOpenWeatherMapThread ("k") 1 2 3 ("sid") emptyOpts).max_backlog = 0 ∧
    (mkOpenWeatherMapThread ("k") 1 2 3 ("sid") emptyOpts).stale = none ∧
    (mkOpenWeatherMapThread ("k") 1 2 3 ("sid") emptyOpts).log_success = true ∧
    (mkOpenWeatherMapThread ("k") 1 2 3 ("sid") emptyOpts).log_failure = true ∧
    (mkOpenWeatherMapThread ("k") 1 2 3 ("sid") emptyOpts).timeout = 60 ∧
    (mkOpenWeatherMapThread ("k") 1 2 3 ("sid") emptyOpts).max_tries = 3 ∧
    (mkOpenWeatherMapThread ("k") 1 2 3 ("sid") emptyOpts).retry_wait = 5 := by
  have h := owm_thread_defaults ("k") 1 2 3 ("sid") emptyOpts
  exact ⟨h.1 rfl, h.2.1 rfl, h.2.2.1 rfl, h.2.2.2.1 rfl, h.2.2.2.2.1 rfl, h.2.2.2.2.2.1 rfl,
    h.2.2.2.2.2.2.1 rfl, h.2.2.2.2.2.2.2.1 rfl, h.2.2.2.2.2.2.2.2 rfl⟩

/-- Claim C8: an unset latitude, longitude or altitude defaults to the host
station's own coordinate for that field; a configured value is kept
unchanged. -/
theorem owm_coordinate_defaults (s : SiteOpts) (stn : StationInfo) (a i : String)
    (ha : s.appid = some a) (hi : s.station_id = some i) :
    ((s.latitude = none →
        (owmInit true (some s) stn).thread.map ThreadConfig.latitude = some stn.latitude_f) ∧
     (∀ v : ℚ, s.latitude = some v →
        (owmInit true (some s) stn).thread.map ThreadConfig.latitude = some v)) ∧
    ((s.longitude = none →
        (owmInit true (some s) stn).thread.map ThreadConfig.longitude = some stn.longitude_f) ∧
     (∀ v : ℚ, s.longitude = some v →
        (owmInit true (some s) stn).thread.map ThreadConfig.longitude = some v)) ∧
    ((s.altitude = none →
        (owmInit true (some s) stn).thread.map ThreadConfig.altitude = some stn.altitude_vt0) ∧
     (∀ v : ℚ, s.altitude = some v →
        (owmInit true (some s) stn).thread.map ThreadConfig.altitude = some v)) := by
  have hth : (owmInit true (some s) stn).thread =
      some (mkOpenWeatherMapThread a (s.latitude.getD stn.latitude_f)
        (s.longitude.getD stn.longitude_f) (s.altitude.getD stn.altitude_vt0) i s) := by
    simp [owmInit, ha, hi]
  refine ⟨⟨?_, ?_⟩, ⟨?_, ?_⟩, ⟨?_, ?_⟩⟩
  · intro h; rw [hth]; simp [mkOpenWeatherMapThread, h]
  · intro v h; rw [hth]; simp [mkOpenWeatherMapThread, h]
  · intro h; rw [hth]; simp [mkOpenWeatherMapThread, h]
  · intro v h; rw [hth]; simp [mkOpenWeatherMapThread, h]
  · intro h; rw [hth]; simp [mkOpenWeatherMapThread, h]
  · intro v h; rw [hth]; simp [mkOpenWeatherMapThread, h]

/-- Witness for C8: with latitude configured to 12 and longitude and
altitude unset, the thread keeps 12 and falls back to the station's -71
and 10. -/
theorem owm_coordinate_defaults_witness :
    (owmInit true (some coordOpts) sampleStn).thread.map ThreadConfig.latitude = some (12 : ℚ) ∧
    (owmInit true (some coordOpts) sampleStn).thread.map ThreadConfig.longitude = some (-71 : ℚ) ∧
    (owmInit true (some coordOpts) sampleStn).thread.map ThreadConfig.altitude = some (10 : ℚ) :=
  ⟨(owm_coordinate_defaults coordOpts sampleStn ("k") ("sid") rfl rfl).1.2 12 rfl,
   (owm_coordinate_defaults coordOpts sampleStn ("k") ("sid") rfl rfl).2.1.1 rfl,
   (owm_coordinate_defaults coordOpts sampleStn ("k") ("sid") rfl rfl).2.2.1 rfl⟩

/-- Claim C9: for every record, `get_post_body` returns the JSON
serialization of a one-element array whose single element is the flat
field mapping, and the declared MIME type is exactly `application/json`. -/
theorem owm_post_body_shape (to_METRIC : Record → Record) (sid : String) (in_record : Record) :
    get_post_body to_METRIC sid in_record =
      (dumpsSingletonArr (buildValues sid (to_METRIC in_record)), ("application/json")) := rfl

/-- Claim C10: when the installed weewx `RESTThread` lacks the
`get_post_body` attribute, initialisation logs an upgrade message and
returns without creating a queue, starting a worker thread, or binding the
new-archive-record listener. -/
theorem owm_old_weewx_skips (site : Option SiteOpts) (stn : StationInfo) :
    owmInit false site stn =
      { loggedUpgradeNeeded := true, loggedMissingOption := false, queueCreated := false,
        threadStarted := false, boundNewArchiveRecord := false, thread := none } := rfl

end Owm
